import Mathlib

/-!
Shallow embedding of a retrieval-augmented question-answering pipeline:
a PDF segmenter (pdf_extractor.py), a vector store over an external
cosine-distance index (vector_store.py), an answer composer calling an
external chat-completion service (qa_system.py), and the build
orchestration (main.py).  Python strings are modelled as lists of
characters, Python dicts with a fixed key set as structures, and the
external services (embedding function, distance metric, completion
endpoint) as explicit function parameters.
-/

/-- Python text is modelled as a list of characters. -/
abbrev PyStr := List Char

/-- The ASCII whitespace characters matched by Python's str.strip and
by the regular-expression class backslash-s: space, tab, newline,
carriage return, vertical tab, form feed. -/
def pyIsSpace (c : Char) : Bool :=
  c = ' ' || c = '\t' || c = '\n' || c = '\r' ||
  c = Char.ofNat 11 || c = Char.ofNat 12

/-- Python str.strip: drop leading whitespace. -/
def pyStripLeft (l : PyStr) : PyStr := l.dropWhile pyIsSpace

/-- Python str.strip: drop trailing whitespace. -/
def pyStripRight (l : PyStr) : PyStr := (l.reverse.dropWhile pyIsSpace).reverse

/-- Python str.strip: drop leading and trailing whitespace. -/
def pyStrip (l : PyStr) : PyStr := pyStripRight (pyStripLeft l)

/-- Auxiliary scanner for collapseWS.  The flag records that we are inside
a whitespace run of length at least two whose single replacement space has
already been emitted. -/
def collapseWSAux : Bool → PyStr → PyStr
  | _, [] => []
  | inRun, c :: cs =>
    if pyIsSpace c then
      if inRun then collapseWSAux true cs
      else
        match cs with
        | [] => [c]
        | c2 :: _ =>
          if pyIsSpace c2 then ' ' :: collapseWSAux true cs
          else c :: collapseWSAux false cs
    else c :: collapseWSAux false cs

/-- re.sub of two-or-more whitespace characters by a single space
(pdf_extractor.py line 30): every maximal whitespace run of length at
least two becomes one space, runs of length one are kept verbatim. -/
def collapseWS (l : PyStr) : PyStr := collapseWSAux false l

/-- Cleaning applied to each raw paragraph (pdf_extractor.py line 30):
collapse whitespace runs, then strip. -/
def cleanText (l : PyStr) : PyStr := pyStrip (collapseWS l)

/-- Python range(0, stop, step) for a positive step. -/
def pyRange (stop step : Nat) : List Nat :=
  List.range' 0 ((stop + step - 1) / step) step

/-- Metadata attached to an extracted chunk (pdf_extractor.py lines
36-41 and 53-54).  chunk_number is present exactly when the paragraph
was split. -/
structure ChunkMeta where
  source : PyStr
  page_number : Nat
  paragraph_number : Nat
  total_pages : Nat
  chunk_number : Option Nat
deriving DecidableEq, Repr

/-- An extracted chunk: text plus metadata. -/
structure Chunk where
  text : PyStr
  meta : ChunkMeta
deriving DecidableEq, Repr

/-- The overlapping-window split of a long cleaned paragraph
(pdf_extractor.py lines 48-54): for each start offset in
range(0, len, chunk_size - overlap), take the slice of length chunk_size,
skip it when shorter than 50 characters, and pair the slice with its
1-based chunk number i / (chunk_size - overlap) + 1. -/
def splitLongParagraph (cleaned : PyStr) (chunkSize overlap : Nat) :
    List (PyStr × Nat) :=
  (pyRange cleaned.length (chunkSize - overlap)).filterMap fun i =>
    if ((cleaned.drop i).take chunkSize).length < 50 then none
    else some ((cleaned.drop i).take chunkSize, i / (chunkSize - overlap) + 1)

/-- Chunks produced from one cleaned paragraph (pdf_extractor.py lines
32-55).  The emptiness test of line 32 is subsumed by the length test,
since the empty text has length 0 < 10. -/
def paragraphChunks (cleaned : PyStr) (meta : ChunkMeta)
    (chunkSize overlap : Nat) : List Chunk :=
  if cleaned.length < 10 then []
  else if cleaned.length ≤ chunkSize then [⟨cleaned, meta⟩]
  else (splitLongParagraph cleaned chunkSize overlap).map fun p =>
    ⟨p.1, { meta with chunk_number := some p.2 }⟩

/-- PDFExtractor.extract_text_with_metadata (pdf_extractor.py lines
15-58).  pagesParagraphs is the per-page output of the paragraph
extractor (one inner list per page, in page order), filename the
document's basename.  Page and paragraph numbers are the 1-based
enumeration indices. -/
def extract_text_with_metadata (filename : PyStr)
    (pagesParagraphs : List (List PyStr)) (chunkSize overlap : Nat) :
    List Chunk :=
  pagesParagraphs.enum.flatMap fun page =>
    page.2.enum.flatMap fun para =>
      paragraphChunks (cleanText para.2)
        ⟨filename, page.1 + 1, para.1 + 1, pagesParagraphs.length, none⟩
        chunkSize overlap

/-- Decimal rendering of a natural number, Python str applied to an int. -/
def natStr (n : Nat) : PyStr := Nat.toDigits 10 n

/-- One record of the persistent index: identifier, document text,
string-valued metadata, and the embedding vector computed when the
record was added. -/
structure IndexedRecord where
  id : PyStr
  text : PyStr
  metadata : List (PyStr × PyStr)
  embedding : List Int
deriving DecidableEq, Repr

/-- The external persistent collection (vector_store.py lines 85-88):
it owns an embedding function (the collection default, since
get_or_create_collection is called without one) and a distance metric
(cosine, per the hnsw:space setting), plus the stored records. -/
structure Collection where
  embedFn : PyStr → List Int
  distFn : List Int → List Int → ℚ
  records : List IndexedRecord

/-- collection.add called with ids, documents and metadatas but no
embeddings (vector_store.py lines 143-147): the store embeds each
document with its own embedding function and appends one record per
position. -/
def Collection.addRecords (c : Collection) (ids texts : List PyStr)
    (metadatas : List (List (PyStr × PyStr))) : Collection :=
  { c with records := c.records ++
      ((ids.zip (texts.zip metadatas)).map fun p =>
        ⟨p.1, p.2.1, p.2.2, c.embedFn p.2.1⟩) }

/-- The stringification of chunk metadata performed by add_documents
(vector_store.py lines 133-140): values are visited in the dict's
insertion order (source, page_number, paragraph_number, total_pages,
then chunk_number when present) and each is converted by str. -/
def metaToStored (m : ChunkMeta) : List (PyStr × PyStr) :=
  [("source".toList, m.source),
   ("page_number".toList, natStr m.page_number),
   ("paragraph_number".toList, natStr m.paragraph_number),
   ("total_pages".toList, natStr m.total_pages)] ++
  (match m.chunk_number with
   | some n => [("chunk_number".toList, natStr n)]
   | none => [])

/-- VectorStore state: the sentence-transformer model loaded at
initialization (as its encode function) and the chroma collection. -/
structure VectorStore where
  modelEncode : PyStr → List Int
  collection : Collection

/-- VectorStore.generate_embeddings (vector_store.py lines 92-94):
encode a list of texts with the wrapped model. -/
def generate_embeddings (vs : VectorStore) (texts : List PyStr) :
    List (List Int) :=
  texts.map vs.modelEncode

/-- VectorStore.add_documents (vector_store.py lines 109-150): return
unchanged when the collection already holds at least one record;
otherwise build ids chunk_0, chunk_1, ..., the text list and the
stringified metadata list, and hand them to collection.add.  No
embeddings argument is passed, so the collection embeds with its own
embedding function; the wrapped model is not consulted. -/
def add_documents (vs : VectorStore) (chunks : List Chunk) : VectorStore :=
  if 0 < vs.collection.records.length then vs
  else
    { vs with collection :=
        (vs.collection.addRecords
          ((List.range chunks.length).map fun i => "chunk_".toList ++ natStr i)
          (chunks.map Chunk.text)
          (chunks.map fun ch => metaToStored ch.meta)) }

/-- Stable insertion into a list sorted by ascending distance. -/
def insertSorted (x : IndexedRecord × ℚ) :
    List (IndexedRecord × ℚ) → List (IndexedRecord × ℚ)
  | [] => [x]
  | y :: ys => if x.2 < y.2 then x :: y :: ys else y :: insertSorted x ys

/-- Ascending stable sort by distance, modelling the index's
nearest-first ordering. -/
def sortByDist (l : List (IndexedRecord × ℚ)) : List (IndexedRecord × ℚ) :=
  l.foldr insertSorted []

/-- collection.query (vector_store.py lines 157-160): embed the query
text, order all records by ascending distance under the collection's
metric, return the first n_results of them with their distances.  When
fewer records exist than requested, all are returned. -/
def Collection.query (c : Collection) (queryText : PyStr) (nResults : Nat) :
    List (IndexedRecord × ℚ) :=
  (sortByDist (c.records.map fun r =>
    (r, c.distFn (c.embedFn queryText) r.embedding))).take nResults

/-- One formatted result of similarity_search. -/
structure RetrievedDoc where
  text : PyStr
  metadata : List (PyStr × PyStr)
  similarity : ℚ
deriving DecidableEq, Repr

/-- VectorStore.similarity_search (vector_store.py lines 152-175):
query the collection and convert each (document, metadata, distance)
triple into a result whose similarity is 1 - distance. -/
def similarity_search (vs : VectorStore) (query : PyStr) (topK : Nat) :
    List RetrievedDoc :=
  (vs.collection.query query topK).map fun p =>
    ⟨p.1.text, p.1.metadata, 1 - p.2⟩

/-- A chunk used in concrete examples. -/
def sampleChunk : Chunk :=
  ⟨"Data engineering lecture one.".toList, ⟨"lec1.pdf".toList, 1, 1, 12, none⟩⟩

/-- A store holding one record already. -/
def vsOne : VectorStore :=
  ⟨fun _ => [1],
   ⟨fun _ => [0], fun _ _ => 0,
    [⟨"chunk_0".toList, "existing".toList, [], [0]⟩]⟩⟩

/-- A store whose wrapped model and whose collection's own embedding
function disagree, over an empty collection. -/
def cexStore5 : VectorStore :=
  ⟨fun _ => [1], ⟨fun _ => [0], fun _ _ => 0, []⟩⟩

/-- A store with an empty collection. -/
def emptyStore : VectorStore :=
  ⟨fun _ => [1], ⟨fun _ => [0], fun _ _ => 0, []⟩⟩

/-- Exact cosine distance between one-dimensional embedding vectors:
one minus the cosine of the angle, here the sign of the product.  A
cosine-metric index reports values in [0, 2] of this kind; opposite
vectors are at distance 2. -/
def cosineDist1 : List Int → List Int → ℚ
  | [a], [b] =>
    if a = 0 ∨ b = 0 then 1
    else 1 - ((a : ℚ) * (b : ℚ)) / ((a.natAbs : ℚ) * (b.natAbs : ℚ))
  | _, _ => 1

/-- A store whose collection embeds one query to the vector opposite
the single stored record's embedding. -/
def cexStore8 : VectorStore :=
  ⟨fun _ => [1],
   ⟨fun t => if t = "opposite".toList then [-1] else [1], cosineDist1,
    [⟨"chunk_0".toList, "course notes".toList, [], [1]⟩]⟩⟩

/-- A store whose single record's embedding equals the query embedding,
at cosine distance 0. -/
def vsW8 : VectorStore :=
  ⟨fun _ => [1],
   ⟨fun _ => [1], cosineDist1,
    [⟨"chunk_0".toList, "notes".toList, [], [1]⟩]⟩⟩

/-- dict.get with a default, over string-valued metadata. -/
def lookupD : List (PyStr × PyStr) → PyStr → PyStr → PyStr
  | [], _, d => d
  | (k, v) :: rest, key, d => if k = key then v else lookupD rest key d

/-- Python sep.join over a list of strings. -/
def joinStr (sep : PyStr) : List PyStr → PyStr
  | [] => []
  | [s] => s
  | s :: rest => s ++ sep ++ joinStr sep rest

/-- Whether pat is a leading piece of the second string. -/
def startsWithStr : PyStr → PyStr → Bool
  | [], _ => true
  | _ :: _, [] => false
  | p :: ps, c :: cs => if p = c then startsWithStr ps cs else false

/-- Whether pat occurs contiguously anywhere in the second string. -/
def hasSubstr (pat : PyStr) : PyStr → Bool
  | [] => startsWithStr pat []
  | c :: cs => startsWithStr pat (c :: cs) || hasSubstr pat cs

/-- The citation tag of one retrieved document (qa_system.py line 34):
label, then source, page and paragraph read from the metadata with
default Unknown. -/
def refTag (label : Nat) (doc : RetrievedDoc) : PyStr :=
  "[来源".toList ++ natStr label ++ ": 文档《".toList ++
  lookupD doc.metadata ("source".toList) ("Unknown".toList) ++
  "》第".toList ++
  lookupD doc.metadata ("page_number".toList) ("Unknown".toList) ++
  "页第".toList ++
  lookupD doc.metadata ("paragraph_number".toList) ("Unknown".toList) ++
  "段]".toList

/-- One entry of the context block (qa_system.py line 37): the tag, a
newline, the document text, a newline. -/
def contextPart (label : Nat) (doc : RetrievedDoc) : PyStr :=
  refTag label doc ++ '\n' :: doc.text ++ ['\n']

/-- The loop body of format_context: the (position, document) pair is
turned into the entry labelled position + 1. -/
def contextEntry (p : Nat × RetrievedDoc) : PyStr :=
  contextPart (p.1 + 1) p.2

/-- QASystem.format_context (qa_system.py lines 22-39): one part per
retrieved document in input order, labelled with the 1-based position,
joined by newlines. -/
def format_context (docs : List RetrievedDoc) : PyStr :=
  joinStr ['\n'] (docs.enum.map contextEntry)

/-- The user prompt assembled by generate_answer (qa_system.py lines
61-66): the f-string with the context block and the query
interpolated, including the literal 8-space indentation of the
source's triple-quoted string. -/
def userPrompt (query context : PyStr) : PyStr :=
  "参考文档：\n        ".toList ++ context ++
  "\n        \n        用户问题：".toList ++ query ++
  "\n        \n        请根据以上参考文档回答问题，并在回答末尾注明信息来源：".toList

/-- Outcome of the HTTP request attempted inside generate_answer's try
block: client.post can raise a transport error, raise_for_status
raises on a non-2xx status, response.json() raises on an undecodable
body, and the choices/message/content lookup raises on an unexpected
shape; otherwise the completion content is obtained.  Failure
constructors carry str(e), the exception's rendering. -/
inductive HttpOutcome where
  | transportError (errMsg : PyStr)
  | badStatus (status : Nat) (errMsg : PyStr)
  | badJson (errMsg : PyStr)
  | badShape (errMsg : PyStr)
  | success (content : PyStr)
deriving DecidableEq, Repr

/-- The try-block body (qa_system.py lines 70-104) as a fallible
computation: a raised exception propagates as Except.error carrying
str(e); the happy path returns the answer content. -/
def requestAnswer : HttpOutcome → Except PyStr PyStr
  | .transportError m => .error m
  | .badStatus _ m => .error m
  | .badJson m => .error m
  | .badShape m => .error m
  | .success c => .ok c

/-- The exception text of a failing outcome, none on success. -/
def requestFailure : HttpOutcome → Option PyStr
  | .transportError m => some m
  | .badStatus _ m => some m
  | .badJson m => some m
  | .badShape m => some m
  | .success _ => none

/-- The answer returned when no API key is configured (qa_system.py
line 46). -/
def missingKeyAnswer : PyStr :=
  "错误: API密钥未设置。请设置API_KEY环境变量。".toList

/-- The error answer built by the except handler (qa_system.py line
107). -/
def errAnswerOf (m : PyStr) : PyStr := "生成答案时出错: ".toList ++ m

/-- QASystem.generate_answer (qa_system.py lines 41-109), with the
completion service abstracted as a function from the user prompt to an
outcome.  The Except layer records exception flow: an Except.error
result would be an exception escaping the function, and the catch-all
except handler converts every raised exception into an error-message
answer, so only Except.ok values are produced. -/
def generate_answer (apiKey : Option PyStr) (query : PyStr)
    (docs : List RetrievedDoc) (service : PyStr → HttpOutcome) :
    Except PyStr PyStr :=
  match apiKey with
  | none => .ok missingKeyAnswer
  | some _ =>
    match requestAnswer (service (userPrompt query (format_context docs))) with
    | .ok ans => .ok ans
    | .error e => .ok (errAnswerOf e)

/-- A retrieved document used in concrete examples. -/
def sampleDoc : RetrievedDoc :=
  ⟨"数据工程内容".toList,
   [("source".toList, "a.pdf".toList),
    ("page_number".toList, "3".toList),
    ("paragraph_number".toList, "2".toList)], 1⟩

/-- One text span of a layout block.  The span dict's text key is
modelled as always present; a missing key would only remove the span,
like an empty one. -/
structure Span where
  text : PyStr
deriving DecidableEq, Repr

/-- One text line of a layout block: its spans and its bounding box
(coordinates modelled as integers; the code only compares them). -/
structure TextLine where
  spans : List Span
  bbox : List Int
deriving DecidableEq, Repr

/-- One layout block of a page (pdf_extractor.py lines 75-81): the
structural type (dict get with default 0), the bounding box, and the
line list, absent when the block has no lines key. -/
structure PdfBlock where
  btype : Nat
  bbox : List Int
  lines : Option (List TextLine)
deriving DecidableEq, Repr

/-- Assembly of one line's text (pdf_extractor.py lines 88-93): spans
whose stripped text is non-empty contribute their text plus a space,
and the concatenation is stripped. -/
def lineText (line : TextLine) : PyStr :=
  pyStrip (line.spans.foldl
    (fun acc sp => if pyStrip sp.text ≠ [] then acc ++ sp.text ++ [' '] else acc)
    [])

/-- The indentation test of pdf_extractor.py line 101: the line text
starts with four spaces or with a tab. -/
def indentFlag (t : PyStr) : Bool :=
  startsWithStr ("    ".toList) t || startsWithStr ("\t".toList) t

/-- The mutable scan state of the paragraph loop (pdf_extractor.py
lines 69-72): finished paragraphs, the lines of the paragraph under
construction, the previous block's type, the previous line's bottom
coordinate. -/
structure ScanState where
  paragraphs : List PyStr
  current : List PyStr
  lastBlockType : Option Nat
  lastY1 : Int
deriving DecidableEq, Repr

/-- Processing of one line (pdf_extractor.py lines 84-118): skip empty
line text; decide a new-paragraph break from the indentation test, the
vertical gap between the block's top and the last line's bottom
exceeding 15, or a block-type change; on a break with a non-empty
accumulator, close the current paragraph (joined by spaces); append
the line text and update the last bottom coordinate. -/
def lineStep (blockBBox : List Int) (blockType : Nat)
    (st : ScanState) (line : TextLine) : ScanState :=
  let t := lineText line
  if t = [] then st
  else
    let y0 := blockBBox.getD 1 0
    let isNew : Bool :=
      indentFlag t ||
      decide (15 < (y0 - st.lastY1).natAbs) ||
      (match st.lastBlockType with
       | some bt => decide (bt ≠ blockType)
       | none => false)
    let st1 :=
      if isNew ∧ st.current ≠ [] then
        { st with paragraphs := st.paragraphs ++ [joinStr [' '] st.current],
                  current := [] }
      else st
    { st1 with current := st1.current ++ [t],
               lastY1 := line.bbox.getD 3 0 }

/-- Processing of one block (pdf_extractor.py lines 75-120): blocks
without a lines key are skipped entirely (the last block type is not
updated); otherwise every line is processed and the last block type is
set after the lines. -/
def blockStep (st : ScanState) (b : PdfBlock) : ScanState :=
  match b.lines with
  | none => st
  | some ls =>
    let st1 := ls.foldl (lineStep b.bbox b.btype) st
    { st1 with lastBlockType := some b.btype }

/-- The paragraph scan over a page's blocks (pdf_extractor.py lines
69-124), closing the last paragraph at the end. -/
def scanParagraphs (blocks : List PdfBlock) : List PyStr :=
  let st := blocks.foldl blockStep ⟨[], [], none, 0⟩
  st.paragraphs ++ (if st.current ≠ [] then [joinStr [' '] st.current] else [])

/-- The sentence-final punctuation class of pdf_extractor.py line 132. -/
def isTerminalPunct (c : Char) : Bool :=
  c = '.' || c = '。' || c = '?' || c = '？' || c = '!' || c = '！'

/-- Whether a paragraph ends in sentence-final punctuation. -/
def endsTerminal (p : PyStr) : Bool :=
  match p.getLast? with
  | some c => isTerminalPunct c
  | none => false

/-- One step of the short-paragraph merge (pdf_extractor.py lines
130-140): a paragraph under 30 characters without terminal punctuation
is accumulated; otherwise it is flushed, merged with the accumulator
when one is pending. -/
def mergeStep (st : List PyStr × PyStr) (p : PyStr) : List PyStr × PyStr :=
  if p.length < 30 ∧ endsTerminal p = false then (st.1, st.2 ++ ' ' :: p)
  else if st.2 ≠ [] then (st.1 ++ [pyStrip (st.2 ++ ' ' :: p)], [])
  else (st.1 ++ [p], [])

/-- The short-paragraph merge pass (pdf_extractor.py lines 126-143). -/
def mergeShortParagraphs (paragraphs : List PyStr) : List PyStr :=
  let st := paragraphs.foldl mergeStep ([], [])
  st.1 ++ (if st.2 ≠ [] then [pyStrip st.2] else [])

/-- PDFExtractor._extract_paragraphs_from_page (pdf_extractor.py lines
60-149): scan the blocks, merge short paragraphs, and fall back to the
plain-text extraction (an external input here) when the block list or
the result is empty. -/
def extract_paragraphs_from_page (blocks : List PdfBlock)
    (fallback : List PyStr) : List PyStr :=
  if blocks = [] then fallback
  else
    let merged := mergeShortParagraphs (scanParagraphs blocks)
    if merged = [] then fallback else merged

/-- The concrete page on which the indentation heuristic should fire:
one block of two close lines, the second line's text starting with
four spaces. -/
def c4Block : PdfBlock :=
  ⟨0, [0, 10, 0, 50],
   some [⟨[⟨"This is the first paragraph line.".toList⟩], [0, 0, 0, 12]⟩,
         ⟨[⟨"    Indented new paragraph line.".toList⟩], [0, 12, 0, 24]⟩]⟩

/-- One row of the per-document extraction CSV written by
save_extracted_text (pdf_extractor.py lines 217-240): the chunk text
and the unpacked metadata columns, chunk_number present only for split
chunks. -/
structure CsvRow where
  text : PyStr
  source : PyStr
  page_number : Nat
  paragraph_number : Nat
  total_pages : Nat
  chunk_number : Option Nat
deriving DecidableEq, Repr

/-- The row written for one chunk (pdf_extractor.py lines 223-228). -/
def chunkToRow (c : Chunk) : CsvRow :=
  ⟨c.text, c.meta.source, c.meta.page_number, c.meta.paragraph_number,
   c.meta.total_pages, c.meta.chunk_number⟩

/-- The chunk rebuilt from a CSV row by setup_knowledge_base (main.py
lines 55-65): only text, source, page_number, paragraph_number and
total_pages are read back; the chunk_number column is not copied. -/
def rowToChunk (r : CsvRow) : Chunk :=
  ⟨r.text, ⟨r.source, r.page_number, r.paragraph_number, r.total_pages, none⟩⟩

/-- The chunk list handed to add_documents by the build phase (main.py
lines 46-68), reloaded from the persisted extraction artifact. -/
def setupLoadChunks (rows : List CsvRow) : List Chunk := rows.map rowToChunk

/-- A split chunk carrying a chunk_number, as written to the artifact. -/
def c9Chunk : Chunk :=
  ⟨"A split chunk of a long source paragraph.".toList,
   ⟨"lec1.pdf".toList, 4, 2, 12, some 2⟩⟩

/-- Every pair emitted by splitLongParagraph has text of length at
least 50 (the skip of small chunks) and at most chunkSize (a slice of
that length). -/
theorem splitLongParagraph_mem {cleaned : PyStr} {chunkSize overlap : Nat}
    {p : PyStr × Nat} (hp : p ∈ splitLongParagraph cleaned chunkSize overlap) :
    50 ≤ p.1.length ∧ p.1.length ≤ chunkSize := by
  unfold splitLongParagraph at hp
  simp only [List.mem_filterMap] at hp
  obtain ⟨i, _, hif⟩ := hp
  by_cases hlen : ((cleaned.drop i).take chunkSize).length < 50
  · rw [if_pos hlen] at hif
    exact Option.noConfusion hif
  · rw [if_neg hlen] at hif
    injection hif with h2
    subst h2
    constructor
    · show 50 ≤ ((cleaned.drop i).take chunkSize).length
      omega
    · show ((cleaned.drop i).take chunkSize).length ≤ chunkSize
      exact List.length_take_le chunkSize (cleaned.drop i)

/-- Every chunk from one paragraph has text length in [10, chunkSize]
and keeps the paragraph's page and paragraph numbers. -/
theorem paragraphChunks_mem {cleaned : PyStr} {meta : ChunkMeta}
    {chunkSize overlap : Nat} {c : Chunk}
    (hc : c ∈ paragraphChunks cleaned meta chunkSize overlap) :
    10 ≤ c.text.length ∧ c.text.length ≤ chunkSize ∧
    c.meta.page_number = meta.page_number ∧
    c.meta.paragraph_number = meta.paragraph_number := by
  unfold paragraphChunks at hc
  by_cases h10 : cleaned.length < 10
  · rw [if_pos h10] at hc
    exact absurd hc (List.not_mem_nil c)
  · rw [if_neg h10] at hc
    by_cases hle : cleaned.length ≤ chunkSize
    · rw [if_pos hle] at hc
      rw [List.mem_singleton] at hc
      subst hc
      exact ⟨by show 10 ≤ cleaned.length; omega, hle, rfl, rfl⟩
    · rw [if_neg hle] at hc
      rw [List.mem_map] at hc
      obtain ⟨p, hp, hpc⟩ := hc
      have hs := splitLongParagraph_mem hp
      subst hpc
      exact ⟨by show 10 ≤ p.1.length; omega,
             by show p.1.length ≤ chunkSize; omega, rfl, rfl⟩

/-- C1: a cleaned paragraph of exactly 1200 characters split with
chunk_size 500 and overlap 50 yields exactly three chunks, numbered 1,
2, 3, whose texts are the slices of the paragraph starting at offsets
0, 450 and 900 (step 450 = chunk_size - overlap), the 300-character
tail not being discarded since it is at least 50 characters long. -/
theorem c1_split_1200 (cleaned : PyStr) (meta : ChunkMeta)
    (h : cleaned.length = 1200) :
    paragraphChunks cleaned meta 500 50 =
      [⟨cleaned.take 500, { meta with chunk_number := some 1 }⟩,
       ⟨(cleaned.drop 450).take 500, { meta with chunk_number := some 2 }⟩,
       ⟨cleaned.drop 900, { meta with chunk_number := some 3 }⟩] := by
  have h1 : ¬ cleaned.length < 10 := by omega
  have h2 : ¬ cleaned.length ≤ 500 := by omega
  have hr : pyRange 1200 450 = [0, 450, 900] := by decide
  have e2 : (cleaned.drop 900).take 500 = cleaned.drop 900 := by
    apply List.take_of_length_le
    simp [List.length_drop, h]
  simp only [paragraphChunks, splitLongParagraph, Nat.reduceSub, h, hr,
    if_neg h1, if_neg h2, List.filterMap_cons, List.filterMap_nil,
    List.map_cons, List.map_nil, List.length_take, List.length_drop,
    List.drop_zero, e2]
  norm_num

/-- Witness for c1_split_1200 at a concrete 1200-character paragraph. -/
theorem c1_split_1200_witness :
    (List.replicate 1200 'a').length = 1200 ∧
    paragraphChunks (List.replicate 1200 'a')
        ⟨"doc.pdf".toList, 1, 1, 1, none⟩ 500 50 =
      [⟨(List.replicate 1200 'a').take 500,
         ⟨"doc.pdf".toList, 1, 1, 1, some 1⟩⟩,
       ⟨((List.replicate 1200 'a').drop 450).take 500,
         ⟨"doc.pdf".toList, 1, 1, 1, some 2⟩⟩,
       ⟨(List.replicate 1200 'a').drop 900,
         ⟨"doc.pdf".toList, 1, 1, 1, some 3⟩⟩] :=
  ⟨by rw [List.length_replicate], c1_split_1200 (List.replicate 1200 'a')
    ⟨"doc.pdf".toList, 1, 1, 1, none⟩ (by rw [List.length_replicate])⟩

/-- C2: every chunk returned by extract_text_with_metadata has text of
length at least 10; a chunk carrying a chunk_number (one produced by
splitting a long paragraph) has text of length at most chunk_size; and
its page_number and paragraph_number are at least 1.  The hypothesis
overlap < chunkSize restricts to the parameter range where Python's
range call is defined (step positive). -/
theorem c2_chunk_invariants (filename : PyStr)
    (pages : List (List PyStr)) (chunkSize overlap : Nat) (c : Chunk)
    (hov : overlap < chunkSize)
    (hmem : c ∈ extract_text_with_metadata filename pages chunkSize overlap) :
    10 ≤ c.text.length ∧
    (c.meta.chunk_number ≠ none → c.text.length ≤ chunkSize) ∧
    1 ≤ c.meta.page_number ∧ 1 ≤ c.meta.paragraph_number := by
  simp only [extract_text_with_metadata, List.mem_flatMap] at hmem
  obtain ⟨page, _, para, _, hc⟩ := hmem
  have h := paragraphChunks_mem hc
  refine ⟨h.1, fun _ => h.2.1, ?_, ?_⟩
  · rw [h.2.2.1]
    show 1 ≤ page.1 + 1
    omega
  · rw [h.2.2.2]
    show 1 ≤ para.1 + 1
    omega

/-- Witness for c2_chunk_invariants: a concrete one-page, one-paragraph
extraction. -/
theorem c2_chunk_invariants_witness :
    (50 < 500) ∧
    ((⟨"abcdefghijkl".toList, ⟨"f.pdf".toList, 1, 1, 1, none⟩⟩ : Chunk) ∈
      extract_text_with_metadata ("f.pdf".toList)
        [["abcdefghijkl".toList]] 500 50) ∧
    (10 ≤ ("abcdefghijkl".toList : PyStr).length ∧
     ((⟨"abcdefghijkl".toList, ⟨"f.pdf".toList, 1, 1, 1, none⟩⟩ : Chunk).meta.chunk_number ≠ none →
       ("abcdefghijkl".toList : PyStr).length ≤ 500) ∧
     1 ≤ (1 : Nat) ∧ 1 ≤ (1 : Nat)) :=
  ⟨by decide, by decide,
   c2_chunk_invariants ("f.pdf".toList) [["abcdefghijkl".toList]] 500 50
     ⟨"abcdefghijkl".toList, ⟨"f.pdf".toList, 1, 1, 1, none⟩⟩
     (by decide) (by decide)⟩

theorem insertSorted_length (x : IndexedRecord × ℚ)
    (l : List (IndexedRecord × ℚ)) :
    (insertSorted x l).length = l.length + 1 := by
  induction l with
  | nil => rfl
  | cons y ys ih =>
    unfold insertSorted
    split
    · simp
    · simp [ih]

theorem sortByDist_length (l : List (IndexedRecord × ℚ)) :
    (sortByDist l).length = l.length := by
  induction l with
  | nil => rfl
  | cons y ys ih =>
    show (insertSorted y (sortByDist ys)).length = ys.length + 1
    rw [insertSorted_length, ih]

theorem mem_insertSorted {x y : IndexedRecord × ℚ}
    {l : List (IndexedRecord × ℚ)} (h : y ∈ insertSorted x l) :
    y = x ∨ y ∈ l := by
  induction l with
  | nil =>
    have h0 : y ∈ [x] := h
    rw [List.mem_singleton] at h0
    exact Or.inl h0
  | cons z zs ih =>
    unfold insertSorted at h
    split at h
    · simpa using h
    · rcases List.mem_cons.mp h with h1 | h2
      · exact Or.inr (List.mem_cons.mpr (Or.inl h1))
      · rcases ih h2 with h3 | h4
        · exact Or.inl h3
        · exact Or.inr (List.mem_cons.mpr (Or.inr h4))

theorem mem_sortByDist {y : IndexedRecord × ℚ} :
    ∀ {l : List (IndexedRecord × ℚ)}, y ∈ sortByDist l → y ∈ l := by
  intro l
  induction l with
  | nil =>
    intro h
    have h0 : y ∈ ([] : List (IndexedRecord × ℚ)) := h
    exact absurd h0 (List.not_mem_nil y)
  | cons z zs ih =>
    intro h
    have h2 : y ∈ insertSorted z (sortByDist zs) := h
    rcases mem_insertSorted h2 with h3 | h4
    · subst h3; exact List.mem_cons_self _ _
    · exact List.mem_cons.mpr (Or.inr (ih h4))

/-- The zip of the id, text and metadata lists built by add_documents
reassembles, record by record, the enumeration of the chunk list. -/
theorem addRecordsZip (E : PyStr → List Int) :
    ∀ (l : List Chunk) (s : Nat),
    (((List.range' s l.length).map fun i => "chunk_".toList ++ natStr i).zip
      ((l.map Chunk.text).zip (l.map fun ch => metaToStored ch.meta))).map
        (fun p => (⟨p.1, p.2.1, p.2.2, E p.2.1⟩ : IndexedRecord)) =
    (l.enumFrom s).map fun p =>
      ⟨"chunk_".toList ++ natStr p.1, p.2.text, metaToStored p.2.meta,
       E p.2.text⟩ := by
  intro l
  induction l with
  | nil => intro s; rfl
  | cons c cs ih =>
    intro s
    simp only [List.length_cons, List.range'_succ, List.map_cons,
      List.zip_cons_cons, List.enumFrom]
    rw [ih (s + 1)]

/-- add_documents on an empty collection stores one record per chunk:
the i-th chunk (0-based) goes under id chunk_i with its text, its
stringified metadata, and the embedding the collection's own embedding
function assigns to its text. -/
theorem add_documents_records_of_empty (vs : VectorStore)
    (chunks : List Chunk) (h : vs.collection.records = []) :
    (add_documents vs chunks).collection.records =
      chunks.enum.map fun p =>
        ⟨"chunk_".toList ++ natStr p.1, p.2.text, metaToStored p.2.meta,
         vs.collection.embedFn p.2.text⟩ := by
  have h0 : ¬ 0 < vs.collection.records.length := by
    rw [h]
    simp
  unfold add_documents
  rw [if_neg h0]
  show vs.collection.records ++ _ = _
  rw [h, List.nil_append, List.range_eq_range']
  exact addRecordsZip vs.collection.embedFn chunks 0

/-- C3: add_documents on a store whose collection already holds at
least one record returns the store unchanged (a silent no-op, no
error), so a second call after a populating first call leaves the
record count unchanged. -/
theorem c3_add_documents_noop :
    (∀ (vs : VectorStore) (chunks : List Chunk),
      1 ≤ vs.collection.records.length → add_documents vs chunks = vs) ∧
    (∀ (vs : VectorStore) (chunks chunks2 : List Chunk),
      1 ≤ (add_documents vs chunks).collection.records.length →
      (add_documents (add_documents vs chunks) chunks2).collection.records.length =
        (add_documents vs chunks).collection.records.length) := by
  have h1 : ∀ (vs : VectorStore) (chunks : List Chunk),
      1 ≤ vs.collection.records.length → add_documents vs chunks = vs := by
    intro vs chunks h
    unfold add_documents
    rw [if_pos (by omega)]
  exact ⟨h1, fun vs chunks chunks2 h => by rw [h1 _ chunks2 h]⟩

/-- Witness for c3_add_documents_noop on a one-record store. -/
theorem c3_add_documents_noop_witness :
    1 ≤ vsOne.collection.records.length ∧
    add_documents vsOne [sampleChunk] = vsOne :=
  ⟨by decide, c3_add_documents_noop.1 vsOne [sampleChunk] (by decide)⟩

/-- C5 counterexample: after add_documents on an empty index the stored
embedding is the one computed by the collection's own embedding
function ([0]), not the one the wrapped sentence-transformer model
would produce ([1], as generate_embeddings shows): the claim that every
chunk's text is embedded via the wrapped model fails. -/
theorem c5_counterexample :
    (add_documents cexStore5 [sampleChunk]).collection.records.map
        IndexedRecord.embedding = [[(0 : Int)]] ∧
    generate_embeddings cexStore5 [sampleChunk.text] = [[(1 : Int)]] ∧
    ([[(0 : Int)]] : List (List Int)) ≠ [[(1 : Int)]] :=
  ⟨rfl, rfl, by decide⟩

/-- C5 amended: when add_documents runs on an empty index it stores
exactly one record per chunk, the i-th chunk (0-based) under id
chunk_i, with the chunk's text and stringified metadata; each text is
embedded by the index store's own embedding function (the wrapped
sentence-transformer loaded at initialization is not invoked on this
path). -/
theorem c5_store_records (vs : VectorStore) (chunks : List Chunk)
    (h : vs.collection.records = []) :
    (add_documents vs chunks).collection.records =
      chunks.enum.map fun p =>
        ⟨"chunk_".toList ++ natStr p.1, p.2.text, metaToStored p.2.meta,
         vs.collection.embedFn p.2.text⟩ :=
  add_documents_records_of_empty vs chunks h

/-- Witness for c5_store_records on a concrete empty store. -/
theorem c5_store_records_witness :
    cexStore5.collection.records = [] ∧
    (add_documents cexStore5 [sampleChunk]).collection.records =
      ([sampleChunk].enum.map fun p =>
        ⟨"chunk_".toList ++ natStr p.1, p.2.text, metaToStored p.2.meta,
         cexStore5.collection.embedFn p.2.text⟩) :=
  ⟨rfl, c5_store_records cexStore5 [sampleChunk] rfl⟩

/-- C6: similarity_search returns at most top_k results and at most as
many results as the collection has records, and on an empty collection
it returns the empty list rather than failing. -/
theorem c6_search_bounds (vs : VectorStore) (q : PyStr) (k : Nat)
    (hk : 1 ≤ k) :
    (similarity_search vs q k).length ≤ k ∧
    (similarity_search vs q k).length ≤ vs.collection.records.length ∧
    (vs.collection.records = [] → similarity_search vs q k = []) := by
  have hlen : (similarity_search vs q k).length =
      min k vs.collection.records.length := by
    unfold similarity_search Collection.query
    rw [List.length_map, List.length_take, sortByDist_length,
      List.length_map]
  refine ⟨by rw [hlen]; omega, by rw [hlen]; omega, ?_⟩
  intro h
  unfold similarity_search Collection.query
  rw [h]
  simp [sortByDist]

/-- Witness for c6_search_bounds: searching an empty index for five
results yields the empty list. -/
theorem c6_search_bounds_witness :
    1 ≤ 5 ∧
    (similarity_search emptyStore ("anything".toList) 5).length ≤ 5 ∧
    similarity_search emptyStore ("anything".toList) 5 = [] :=
  ⟨by decide,
   (c6_search_bounds emptyStore ("anything".toList) 5 (by decide)).1,
   (c6_search_bounds emptyStore ("anything".toList) 5 (by decide)).2.2 rfl⟩

/-- C8 counterexample: with the cosine metric a query embedded opposite
to a stored record is at distance 2, so the reported similarity
1 - distance is -1, outside [0, 1]: the claim that similarity always
lies in [0, 1] fails (no clamping is performed). -/
theorem c8_counterexample :
    (similarity_search cexStore8 ("opposite".toList) 1).map
        RetrievedDoc.similarity = [(-1 : ℚ)] ∧
    ¬ (0 ≤ (-1 : ℚ)) := by
  have e1 : (similarity_search cexStore8 ("opposite".toList) 1).map
      RetrievedDoc.similarity = [1 - cosineDist1 [-1] [1]] := rfl
  have e2 : cosineDist1 [-1] [1] = 2 := by
    simp [cosineDist1]
    norm_num
  constructor
  · rw [e1, e2]
    norm_num
  · norm_num

/-- C8 amended: every result of similarity_search carries similarity
computed exactly as 1 minus the distance the index reports for some
stored record (under the collection's metric and embedding function);
that similarity is at most 1 whenever the distance is nonnegative and
at least 0 whenever the distance is at most 1, but it lies in [0, 1]
in general only when the reported distance lies in [0, 1] — cosine
distance can reach 2, making the similarity negative. -/
theorem c8_similarity_formula (vs : VectorStore) (q : PyStr) (k : Nat)
    (r : RetrievedDoc) (hr : r ∈ similarity_search vs q k) :
    ∃ rec ∈ vs.collection.records,
      r.text = rec.text ∧ r.metadata = rec.metadata ∧
      r.similarity =
        1 - vs.collection.distFn (vs.collection.embedFn q) rec.embedding ∧
      (0 ≤ vs.collection.distFn (vs.collection.embedFn q) rec.embedding →
        r.similarity ≤ 1) ∧
      (vs.collection.distFn (vs.collection.embedFn q) rec.embedding ≤ 1 →
        0 ≤ r.similarity) := by
  unfold similarity_search Collection.query at hr
  rw [List.mem_map] at hr
  obtain ⟨p, hp, rfl⟩ := hr
  have hp2 : p ∈ sortByDist (vs.collection.records.map fun rec =>
      (rec, vs.collection.distFn (vs.collection.embedFn q) rec.embedding)) :=
    List.mem_of_mem_take hp
  have hp3 := mem_sortByDist hp2
  rw [List.mem_map] at hp3
  obtain ⟨rec, hrec, hpe⟩ := hp3
  subst hpe
  refine ⟨rec, hrec, rfl, rfl, rfl, ?_, ?_⟩
  · intro h0
    show (1 : ℚ) -
      vs.collection.distFn (vs.collection.embedFn q) rec.embedding ≤ 1
    linarith
  · intro h1
    show (0 : ℚ) ≤
      1 - vs.collection.distFn (vs.collection.embedFn q) rec.embedding
    linarith

/-- Witness for c8_similarity_formula on a concrete one-record store. -/
theorem c8_similarity_formula_witness :
    ((⟨"notes".toList, [], 1⟩ : RetrievedDoc) ∈
      similarity_search vsW8 ("q".toList) 1) ∧
    ∃ rec ∈ vsW8.collection.records,
      (⟨"notes".toList, [], 1⟩ : RetrievedDoc).text = rec.text ∧
      (⟨"notes".toList, [], 1⟩ : RetrievedDoc).metadata = rec.metadata ∧
      (⟨"notes".toList, [], 1⟩ : RetrievedDoc).similarity =
        1 - vsW8.collection.distFn (vsW8.collection.embedFn ("q".toList))
              rec.embedding ∧
      (0 ≤ vsW8.collection.distFn (vsW8.collection.embedFn ("q".toList))
              rec.embedding →
        (⟨"notes".toList, [], 1⟩ : RetrievedDoc).similarity ≤ 1) ∧
      (vsW8.collection.distFn (vsW8.collection.embedFn ("q".toList))
              rec.embedding ≤ 1 →
        0 ≤ (⟨"notes".toList, [], 1⟩ : RetrievedDoc).similarity) := by
  have e1 : similarity_search vsW8 ("q".toList) 1 =
      [⟨"notes".toList, [], 1 - cosineDist1 [1] [1]⟩] := rfl
  have e2 : cosineDist1 [1] [1] = 0 := by simp [cosineDist1]
  have hmem : (⟨"notes".toList, [], 1⟩ : RetrievedDoc) ∈
      similarity_search vsW8 ("q".toList) 1 := by
    rw [e1, e2]
    norm_num
  exact ⟨hmem, c8_similarity_formula vsW8 ("q".toList) 1
    ⟨"notes".toList, [], 1⟩ hmem⟩

/-- C7: generate_answer never lets an exception escape: for every API
key state, query, retrieved-document list and completion outcome it
returns Except.ok with an answer string; with a missing key the answer
is the missing-key message, and for every failing outcome (transport
error, non-2xx status, undecodable body, unexpected response shape)
the answer is the human-readable error string built from the exception
text. -/
theorem c7_no_exception_escape (apiKey : Option PyStr) (query : PyStr)
    (docs : List RetrievedDoc) (service : PyStr → HttpOutcome) :
    (∃ s, generate_answer apiKey query docs service = Except.ok s) ∧
    (apiKey = none →
      generate_answer apiKey query docs service = Except.ok missingKeyAnswer) ∧
    (∀ k m, apiKey = some k →
      requestFailure (service (userPrompt query (format_context docs))) =
        some m →
      generate_answer apiKey query docs service =
        Except.ok (errAnswerOf m)) := by
  refine ⟨?_, ?_, ?_⟩
  · cases apiKey with
    | none => exact ⟨missingKeyAnswer, rfl⟩
    | some k =>
      cases hsvc : requestAnswer (service (userPrompt query (format_context docs))) with
      | ok a => exact ⟨a, by simp [generate_answer, hsvc]⟩
      | error e => exact ⟨errAnswerOf e, by simp [generate_answer, hsvc]⟩
  · intro hnone
    subst hnone
    rfl
  · intro k m hk hm
    subst hk
    cases hsvc : service (userPrompt query (format_context docs)) with
    | success c =>
      rw [hsvc] at hm
      exact absurd hm (by simp [requestFailure])
    | transportError m2 =>
      rw [hsvc] at hm
      simp only [requestFailure, Option.some.injEq] at hm
      subst hm
      simp [generate_answer, requestAnswer, hsvc]
    | badStatus st m2 =>
      rw [hsvc] at hm
      simp only [requestFailure, Option.some.injEq] at hm
      subst hm
      simp [generate_answer, requestAnswer, hsvc]
    | badJson m2 =>
      rw [hsvc] at hm
      simp only [requestFailure, Option.some.injEq] at hm
      subst hm
      simp [generate_answer, requestAnswer, hsvc]
    | badShape m2 =>
      rw [hsvc] at hm
      simp only [requestFailure, Option.some.injEq] at hm
      subst hm
      simp [generate_answer, requestAnswer, hsvc]

/-- Witness for c7_no_exception_escape: an HTTP 500 outcome yields the
error-string answer via Except.ok. -/
theorem c7_no_exception_escape_witness :
    (some ("sk-test".toList) : Option PyStr) = some ("sk-test".toList) ∧
    requestFailure ((fun _ => HttpOutcome.badStatus 500
        ("Server error 500 for url".toList))
      (userPrompt ("什么是ETL".toList) (format_context []))) =
      some ("Server error 500 for url".toList) ∧
    generate_answer (some ("sk-test".toList)) ("什么是ETL".toList) []
      (fun _ => HttpOutcome.badStatus 500 ("Server error 500 for url".toList)) =
      Except.ok (errAnswerOf ("Server error 500 for url".toList)) :=
  ⟨rfl, rfl,
   (c7_no_exception_escape (some ("sk-test".toList)) ("什么是ETL".toList) []
      (fun _ => HttpOutcome.badStatus 500
        ("Server error 500 for url".toList))).2.2
     ("sk-test".toList) ("Server error 500 for url".toList) rfl rfl⟩

/-- Each part of a joined list occurs contiguously in the join, at its
position. -/
theorem joinStr_decomp (sep : PyStr) :
    ∀ (parts : List PyStr) (i : Nat) (h : i < parts.length),
    ∃ pre post, joinStr sep parts = pre ++ parts.get ⟨i, h⟩ ++ post := by
  intro parts
  induction parts with
  | nil =>
    intro i h
    exact absurd h (by simp)
  | cons s rest ih =>
    intro i h
    cases rest with
    | nil =>
      cases i with
      | zero => exact ⟨[], [], by simp [joinStr]⟩
      | succ j =>
        exact absurd h (by simp)
    | cons s2 rest2 =>
      cases i with
      | zero =>
        refine ⟨[], sep ++ joinStr sep (s2 :: rest2), ?_⟩
        show joinStr sep (s :: s2 :: rest2) = [] ++ s ++ (sep ++ joinStr sep (s2 :: rest2))
        simp [joinStr]
      | succ j =>
        have hj : j < (s2 :: rest2).length := by
          simp only [List.length_cons] at h ⊢
          omega
        obtain ⟨pre, post, hpp⟩ := ih j hj
        refine ⟨s ++ sep ++ pre, post, ?_⟩
        show joinStr sep (s :: s2 :: rest2) = _
        rw [show joinStr sep (s :: s2 :: rest2) =
          s ++ sep ++ joinStr sep (s2 :: rest2) from rfl, hpp]
        simp [List.append_assoc]

set_option maxHeartbeats 1000000 in
/-- C10: format_context of the empty document list is the empty
string, and the user prompt assembled from it carries no citation tag;
for any document list, the i-th document's context entry — its
citation tag labelled i+1 followed by its text — occurs contiguously
in the context block, in input order. -/
theorem c10_format_context :
    format_context [] = [] ∧
    (∀ (docs : List RetrievedDoc) (i : Nat) (h : i < docs.length),
      ∃ pre post, format_context docs =
        pre ++ contextPart (i + 1) (docs.get ⟨i, h⟩) ++ post) ∧
    hasSubstr ("[来源".toList)
      (userPrompt ("什么是数据工程".toList) (format_context [])) = false := by
  refine ⟨rfl, ?_, by decide⟩
  intro docs i h
  have hl : i < (docs.enum.map contextEntry).length := by
    rw [List.length_map, List.enum_length]
    exact h
  obtain ⟨pre, post, hpp⟩ :=
    joinStr_decomp ['\n'] (docs.enum.map contextEntry) i hl
  refine ⟨pre, post, ?_⟩
  rw [show format_context docs =
    joinStr ['\n'] (docs.enum.map contextEntry) from rfl, hpp]
  have hget : (docs.enum.map contextEntry).get ⟨i, hl⟩ =
      contextPart (i + 1) (docs.get ⟨i, h⟩) := by
    simp [List.get_eq_getElem, List.getElem_map, List.getElem_enum,
      contextEntry]
  rw [hget]

/-- Witness for c10_format_context: the single document of a one-element
list appears in the context block under label 1. -/
theorem c10_format_context_witness :
    0 < ([sampleDoc] : List RetrievedDoc).length ∧
    ∃ pre post, format_context [sampleDoc] =
      pre ++ contextPart (0 + 1)
        (([sampleDoc] : List RetrievedDoc).get ⟨0, by decide⟩) ++ post :=
  ⟨by decide, c10_format_context.2.1 [sampleDoc] 0 (by decide)⟩

theorem dropWhile_head_false (p : Char → Bool) :
    ∀ (l : List Char) (c : Char) (cs : List Char),
    l.dropWhile p = c :: cs → p c = false := by
  intro l
  induction l with
  | nil =>
    intro c cs h
    exact absurd h (by simp)
  | cons a as ih =>
    intro c cs h
    rw [List.dropWhile_cons] at h
    by_cases hp : p a = true
    · rw [if_pos hp] at h
      exact ih c cs h
    · rw [if_neg hp] at h
      injection h with h1 _
      subst h1
      exact Bool.not_eq_true _ |>.mp hp

theorem pyStripRight_prefix (l : PyStr) : ∃ t, l = pyStripRight l ++ t := by
  unfold pyStripRight
  refine ⟨(l.reverse.takeWhile pyIsSpace).reverse, ?_⟩
  conv_lhs => rw [← List.reverse_reverse l,
    ← @List.takeWhile_append_dropWhile _ pyIsSpace l.reverse]
  rw [List.reverse_append]

/-- The first character surviving a Python strip is never whitespace. -/
theorem pyStrip_head_not_space (l : PyStr) (c : Char) (cs : PyStr)
    (h : pyStrip l = c :: cs) : pyIsSpace c = false := by
  obtain ⟨t, ht⟩ := pyStripRight_prefix (pyStripLeft l)
  have hdw : pyStripLeft l = c :: (cs ++ t) := by
    rw [show pyStrip l = pyStripRight (pyStripLeft l) from rfl] at h
    rw [ht, h]
    simp
  exact dropWhile_head_false pyIsSpace l c (cs ++ t) hdw

/-- A stripped string never carries the indentation marker. -/
theorem pyStrip_no_indentFlag (l : PyStr) : indentFlag (pyStrip l) = false := by
  cases h : pyStrip l with
  | nil => rfl
  | cons c cs =>
    have hc := pyStrip_head_not_space l c cs h
    have hcs : ¬ (' ' = c) := by
      intro he
      rw [← he] at hc
      exact absurd hc (by decide)
    have hct : ¬ ('\t' = c) := by
      intro he
      rw [← he] at hc
      exact absurd hc (by decide)
    show (startsWithStr (' ' :: "   ".toList) (c :: cs) ||
      startsWithStr ['\t'] (c :: cs)) = false
    show ((if ' ' = c then startsWithStr ("   ".toList) cs else false) ||
      (if '\t' = c then startsWithStr [] cs else false)) = false
    rw [if_neg hcs, if_neg hct]
    rfl

/-- A line's assembled text never carries the indentation marker,
since it is stripped last. -/
theorem lineText_no_indentFlag (line : TextLine) :
    indentFlag (lineText line) = false :=
  pyStrip_no_indentFlag _

/-- C4: the indentation heuristic of the layout scan can never fire,
because each line's text is whitespace-stripped before the test: no
line text starts with four spaces or a tab.  On the concrete page
where the second line is indented by four spaces — which per the
heuristic should open a new paragraph — the scan emits one single
merged paragraph instead of two. -/
theorem c4_indentation_break_never_fires :
    (∀ line : TextLine, indentFlag (lineText line) = false) ∧
    extract_paragraphs_from_page [c4Block] [] =
      ["This is the first paragraph line. Indented new paragraph line.".toList] :=
  ⟨fun line => lineText_no_indentFlag line, by decide⟩

/-- C9 counterexample: a chunk with chunk_number 2 goes through the
artifact round trip and the build phase, and the stored record's
metadata carries only the four other keys — chunk_number is dropped by
the reload, so the chunk is not persisted verbatim. -/
theorem c9_counterexample :
    c9Chunk.meta.chunk_number = some 2 ∧
    (add_documents emptyStore
        (setupLoadChunks [chunkToRow c9Chunk])).collection.records.map
      (fun r => r.metadata.map Prod.fst) =
      [["source".toList, "page_number".toList, "paragraph_number".toList,
        "total_pages".toList]] :=
  ⟨rfl, by decide⟩

/-- C9 amended: on the reload path of the build phase every stored
record keeps the row's text verbatim and its source, page_number,
paragraph_number and total_pages (numbers as decimal strings), under
id chunk_i in row order; the chunk_number column of the artifact is
dropped by the reload and never reaches the store. -/
theorem c9_reload_path (rows : List CsvRow) (vs : VectorStore)
    (h : vs.collection.records = []) :
    (add_documents vs (setupLoadChunks rows)).collection.records =
      rows.enum.map fun p =>
        ⟨"chunk_".toList ++ natStr p.1, p.2.text,
         [("source".toList, p.2.source),
          ("page_number".toList, natStr p.2.page_number),
          ("paragraph_number".toList, natStr p.2.paragraph_number),
          ("total_pages".toList, natStr p.2.total_pages)],
         vs.collection.embedFn p.2.text⟩ := by
  rw [add_documents_records_of_empty vs (setupLoadChunks rows) h]
  unfold setupLoadChunks
  rw [List.enum_map, List.map_map]
  apply List.map_congr_left
  intro p _
  obtain ⟨i, r⟩ := p
  rfl

/-- Witness for c9_reload_path on a concrete one-row artifact. -/
theorem c9_reload_path_witness :
    emptyStore.collection.records = [] ∧
    (add_documents emptyStore
        (setupLoadChunks [chunkToRow c9Chunk])).collection.records =
      ([chunkToRow c9Chunk].enum.map fun p =>
        ⟨"chunk_".toList ++ natStr p.1, p.2.text,
         [("source".toList, p.2.source),
          ("page_number".toList, natStr p.2.page_number),
          ("paragraph_number".toList, natStr p.2.paragraph_number),
          ("total_pages".toList, natStr p.2.total_pages)],
         emptyStore.collection.embedFn p.2.text⟩) :=
  ⟨rfl, c9_reload_path [chunkToRow c9Chunk] emptyStore rfl⟩
